import Mathlib

/-!
Verification of the order-manager soak-test tooling:
the fault-injection service (scripts/mock_binance.py) and the soak-test
driver (scripts/cli_loop_test.py), embedded shallowly and checked against
the behavioral spec.
-/

/-- An HTTP response of the fault-injection service, modelled by its status
code and the body fields that vary across endpoints and attempts. -/
structure Response where
  status : Nat
  msg : Option String := none
  code : Option Int := none
  price : Option String := none
  orderId : Option Nat := none
  serverTime : Option Nat := none
  transactTime : Option Nat := none
  symbol : Option String := none
deriving DecidableEq, Repr

/-- The shared attempt registry: a total map from endpoint key to counter,
modelling the Python dict with a default of 0 for missing keys. -/
def Registry : Type := String → Nat

/-- The registry at service start: no endpoint has been called. -/
def emptyRegistry : Registry := fun _ => 0

/-- get_attempt: increment the endpoint's counter and return the new value. -/
def get_attempt (reg : Registry) (endpoint : String) : Registry × Nat :=
  let v := reg endpoint + 1
  (fun e => if e = endpoint then v else reg e, v)

/-- reset_attempt: set the endpoint's counter back to 0. -/
def reset_attempt (reg : Registry) (endpoint : String) : Registry :=
  fun e => if e = endpoint then 0 else reg e

/-- mock_time handler: 503 while attempt < 4, else 200 with the current
epoch milliseconds, resetting the counter. -/
def mock_time (now : Nat) (reg : Registry) : Registry × Response :=
  let p := get_attempt reg "time"
  if p.2 < 4 then
    (p.1, { status := 503, msg := some "Server Busy" })
  else
    (reset_attempt p.1 "time", { status := 200, serverTime := some now })

/-- mock_exchange_info handler: always 200, echoing the requested symbol;
touches no counter. -/
def mock_exchange_info (symbol : String) (reg : Registry) : Registry × Response :=
  (reg, { status := 200, symbol := some symbol })

/-- mock_ticker handler: 429 when the incremented attempt equals 4
(without reset), otherwise 200 with the fixed price, resetting the counter. -/
def mock_ticker (reg : Registry) : Registry × Response :=
  let p := get_attempt reg "ticker"
  if p.2 = 4 then
    (p.1, { status := 429, code := some (-1003), msg := some "Too many requests" })
  else
    (reset_attempt p.1 "ticker", { status := 200, symbol := some "BTCUSDT", price := some "60000.00" })

/-- mock_account handler: always 200 with the fixed balance list; touches
no counter. -/
def mock_account (reg : Registry) : Registry × Response :=
  (reg, { status := 200 })

/-- mock_place_order handler: 418 while attempt <= 4, else 200 with the
constant order id, resetting the counter. -/
def mock_place_order (now : Nat) (reg : Registry) : Registry × Response :=
  let p := get_attempt reg "place_order"
  if p.2 ≤ 4 then
    (p.1, { status := 418, code := some (-1003), msg := some "IP Banned" })
  else
    (reset_attempt p.1 "place_order",
      { status := 200, symbol := some "BTCUSDT", orderId := some 1234567,
        transactTime := some now })

/-- Registry state after k sequential calls to a single handler, starting
from the fresh service state. -/
def runCalls (f : Registry → Registry × Response) : Nat → Registry
  | 0 => emptyRegistry
  | k + 1 => (f (runCalls f k)).1

/-- The response of the k-th sequential call (1-indexed) to a handler. -/
def respAtCall (f : Registry → Registry × Response) (k : Nat) : Response :=
  (f (runCalls f (k - 1))).2

/-- C7: the time endpoint returns 503 at calls 1, 2, 3 and 200 with a
numeric serverTime at call 4, then 503 again at call 5; the order endpoint
returns 418 at calls 1 through 4, 200 with orderId 1234567 at call 5, and
418 again at call 6. -/
theorem time_and_order_cycles (now : Nat) :
    (respAtCall (mock_time now) 1).status = 503
    ∧ (respAtCall (mock_time now) 2).status = 503
    ∧ (respAtCall (mock_time now) 3).status = 503
    ∧ (respAtCall (mock_time now) 4).status = 200
    ∧ (respAtCall (mock_time now) 4).serverTime = some now
    ∧ (respAtCall (mock_time now) 5).status = 503
    ∧ (respAtCall (mock_place_order now) 1).status = 418
    ∧ (respAtCall (mock_place_order now) 2).status = 418
    ∧ (respAtCall (mock_place_order now) 3).status = 418
    ∧ (respAtCall (mock_place_order now) 4).status = 418
    ∧ (respAtCall (mock_place_order now) 5).status = 200
    ∧ (respAtCall (mock_place_order now) 5).orderId = some 1234567
    ∧ (respAtCall (mock_place_order now) 6).status = 418 :=
  ⟨rfl, rfl, rfl, rfl, rfl, rfl, rfl, rfl, rfl, rfl, rfl, rfl, rfl⟩

/-- C1: on the code as written, the ticker endpoint resets its counter on
every 200 response, so the attempt value is always 1 and the 429 branch is
never taken: the 4th call returns 200 with price "60000.00" and the counter
stays at 0 after every call, contradicting the specified 429 at call 4. -/
theorem ticker_429_branch_unreachable :
    (respAtCall mock_ticker 4).status = 200
    ∧ (respAtCall mock_ticker 4).price = some "60000.00"
    ∧ (respAtCall mock_ticker 1).status = 200
    ∧ (respAtCall mock_ticker 5).status = 200
    ∧ runCalls mock_ticker 4 "ticker" = 0 :=
  ⟨rfl, rfl, rfl, rfl, rfl⟩

/-- C2: the AttemptCounter invariant (counter after k calls equals
k mod cycle length) fails for the ticker endpoint: after 1 call the ticker
counter is 0, not 1 % 4 = 1, and the response at call 4 is not the 429 the
policy table requires. -/
theorem ticker_counter_deviates :
    runCalls mock_ticker 1 "ticker" = 0
    ∧ 1 % 4 = 1
    ∧ (respAtCall mock_ticker 4).status ≠ 429 :=
  ⟨rfl, rfl, by decide⟩

/-- C8: each stateful handler leaves every other endpoint's counter
unchanged; the stateless exchange-info and account handlers mutate no
counter at all; and each stateful handler's response and own-counter
update depend only on its own counter's value. -/
theorem endpoint_frame (now : Nat) (sym : String) (reg reg2 : Registry) (e : String) :
    (e ≠ "time" → (mock_time now reg).1 e = reg e)
    ∧ (e ≠ "ticker" → (mock_ticker reg).1 e = reg e)
    ∧ (e ≠ "place_order" → (mock_place_order now reg).1 e = reg e)
    ∧ (mock_exchange_info sym reg).1 = reg
    ∧ (mock_account reg).1 = reg
    ∧ (reg "time" = reg2 "time" →
        (mock_time now reg).2 = (mock_time now reg2).2
        ∧ (mock_time now reg).1 "time" = (mock_time now reg2).1 "time")
    ∧ (reg "ticker" = reg2 "ticker" →
        (mock_ticker reg).2 = (mock_ticker reg2).2
        ∧ (mock_ticker reg).1 "ticker" = (mock_ticker reg2).1 "ticker")
    ∧ (reg "place_order" = reg2 "place_order" →
        (mock_place_order now reg).2 = (mock_place_order now reg2).2
        ∧ (mock_place_order now reg).1 "place_order" = (mock_place_order now reg2).1 "place_order") := by
  refine ⟨?_, ?_, ?_, rfl, rfl, ?_, ?_, ?_⟩
  · intro h
    simp only [mock_time, get_attempt]
    split <;> simp [reset_attempt, h]
  · intro h
    simp only [mock_ticker, get_attempt]
    split <;> simp [reset_attempt, h]
  · intro h
    simp only [mock_place_order, get_attempt]
    split <;> simp [reset_attempt, h]
  · intro h
    simp only [mock_time, get_attempt]
    rw [h]
    refine ⟨?_, ?_⟩ <;> (split <;> simp [reset_attempt])
  · intro h
    simp only [mock_ticker, get_attempt]
    rw [h]
    refine ⟨?_, ?_⟩ <;> (split <;> simp [reset_attempt])
  · intro h
    simp only [mock_place_order, get_attempt]
    rw [h]
    refine ⟨?_, ?_⟩ <;> (split <;> simp [reset_attempt])

/-- A sample registry used to exercise the frame theorem concretely. -/
def regW : Registry := fun e => if e = "time" then 1 else if e = "ticker" then 2 else 0

theorem endpoint_frame_witness :
    (mock_time 0 regW).1 "ticker" = regW "ticker"
    ∧ (mock_ticker regW).1 "time" = regW "time"
    ∧ (mock_place_order 0 regW).1 "time" = regW "time"
    ∧ (mock_time 0 regW).2 = (mock_time 0 regW).2
    ∧ (mock_ticker regW).2 = (mock_ticker regW).2
    ∧ (mock_place_order 0 regW).2 = (mock_place_order 0 regW).2 :=
  ⟨(endpoint_frame 0 "BTCUSDT" regW regW "ticker").1 (by decide),
    (endpoint_frame 0 "BTCUSDT" regW regW "time").2.1 (by decide),
    (endpoint_frame 0 "BTCUSDT" regW regW "time").2.2.1 (by decide),
    ((endpoint_frame 0 "BTCUSDT" regW regW "time").2.2.2.2.2.1 rfl).1,
    ((endpoint_frame 0 "BTCUSDT" regW regW "time").2.2.2.2.2.2.1 rfl).1,
    ((endpoint_frame 0 "BTCUSDT" regW regW "time").2.2.2.2.2.2.2 rfl).1⟩

/-- Substring containment, modelling the Python `marker in output` test. -/
def hasMarker (marker output : String) : Bool :=
  output.toList.tails.any (fun t => marker.toList.isPrefixOf t)

/-- The record produced by run_once for a process that completed within the
timeout: exit code, wall-clock duration, captured output, and the two
marker flags derived from the output text. -/
structure RunOnceResult where
  exit_code : Int
  duration : ℚ
  output : String
  retriable : Bool
  rate_limit : Bool
deriving DecidableEq, Repr

/-- run_once: capture exit code, duration and output, and derive the
retriable and rate-limit flags by substring search. -/
def run_once (exit_code : Int) (duration : ℚ) (output : String) : RunOnceResult :=
  { exit_code := exit_code, duration := duration, output := output,
    retriable := hasMarker "Retriable error" output,
    rate_limit := hasMarker "Rate limit exceeded" output }

/-- What one driver iteration observed of the target process: either the
timeout was exceeded, or the process completed with a run_once record. -/
inductive IterOutcome where
  | timeout
  | completed (r : RunOnceResult)
deriving DecidableEq, Repr

/-- The driver's running tallies, the duration list, and the trace of
display statuses printed so far. -/
structure Tally where
  crashes : Nat := 0
  rate_limits : Nat := 0
  successes : Nat := 0
  retriable_seen : Nat := 0
  durations : List ℚ := []
  statuses : List String := []
deriving DecidableEq, Repr

/-- The tallies before the first iteration. -/
def initTally : Tally := {}

/-- One pass of the main loop body: on timeout, count a crash and print
TIMEOUT; otherwise record the duration, count a crash on non-zero exit,
tally the retriable marker, and print the display status chosen by the
rate-limit / exit-code precedence. -/
def stepIteration (t : Tally) (o : IterOutcome) : Tally :=
  match o with
  | .timeout =>
      { t with crashes := t.crashes + 1, statuses := t.statuses ++ ["TIMEOUT"] }
  | .completed r =>
      let t1 := { t with durations := t.durations ++ [r.duration] }
      let t2 := if r.exit_code ≠ 0 then { t1 with crashes := t1.crashes + 1 } else t1
      let t3 := if r.retriable then { t2 with retriable_seen := t2.retriable_seen + 1 } else t2
      if r.rate_limit then
        { t3 with rate_limits := t3.rate_limits + 1, statuses := t3.statuses ++ ["RATE_LIMIT"] }
      else if r.exit_code = 0 then
        { t3 with successes := t3.successes + 1, statuses := t3.statuses ++ ["OK"] }
      else
        { t3 with statuses := t3.statuses ++ ["FAIL"] }

/-- The whole iteration loop, over the per-iteration process outcomes. -/
def runLoop (outcomes : List IterOutcome) : Tally :=
  outcomes.foldl stepIteration initTally

/-- The driver's final exit code: 2 if any crash occurred, else 0. -/
def exitCode (t : Tally) : Int :=
  if t.crashes > 0 then 2 else 0

/-- Resolution of the command tokens at the top of main: default to
["balances"] when none were given, strip a leading "--" separator, and
fail (exit 2) when that leaves nothing. -/
def resolveCliArgs (command : List String) : Option (List String) :=
  let cli_args := if command = [] then ["balances"] else command
  let cli_args2 := if cli_args.head? = some "--" then cli_args.tail else cli_args
  if cli_args2 = [] then none else some cli_args2

/-- main: resolve the command tokens; on failure return exit code 2 with
no loop run, otherwise run the loop and derive the exit code from the
crash count. -/
def mainDriver (command : List String) (outcomes : List IterOutcome) :
    Int × Option Tally :=
  match resolveCliArgs command with
  | none => (2, none)
  | some _ => (exitCode (runLoop outcomes), some (runLoop outcomes))

/-- The display status an iteration outcome is printed with. -/
def statusOf (o : IterOutcome) : String :=
  match o with
  | .timeout => "TIMEOUT"
  | .completed r =>
      if r.rate_limit then "RATE_LIMIT" else if r.exit_code = 0 then "OK" else "FAIL"

/-- The duration sample an iteration outcome contributes, if any. -/
def durOf (o : IterOutcome) : Option ℚ :=
  match o with
  | .timeout => none
  | .completed r => some r.duration

/-- Whether an iteration outcome counts as a crash. -/
def isCrash (o : IterOutcome) : Bool :=
  match o with
  | .timeout => true
  | .completed r => decide (r.exit_code ≠ 0)

theorem stepIteration_statuses (t : Tally) (o : IterOutcome) :
    (stepIteration t o).statuses = t.statuses ++ [statusOf o] := by
  cases o with
  | timeout => rfl
  | completed r =>
      simp only [stepIteration, statusOf]
      by_cases h1 : r.exit_code = 0 <;> by_cases h2 : r.retriable <;>
        by_cases h3 : r.rate_limit <;> simp [h1, h2, h3]

theorem stepIteration_durations (t : Tally) (o : IterOutcome) :
    (stepIteration t o).durations = t.durations ++ (durOf o).toList := by
  cases o with
  | timeout => simp [stepIteration, durOf]
  | completed r =>
      simp only [stepIteration, durOf]
      by_cases h1 : r.exit_code = 0 <;> by_cases h2 : r.retriable <;>
        by_cases h3 : r.rate_limit <;> simp [h1, h2, h3]

theorem stepIteration_crashes (t : Tally) (o : IterOutcome) :
    (stepIteration t o).crashes = t.crashes + (if isCrash o then 1 else 0) := by
  cases o with
  | timeout => simp [stepIteration, isCrash]
  | completed r =>
      simp only [stepIteration, isCrash]
      by_cases h1 : r.exit_code = 0 <;> by_cases h2 : r.retriable <;>
        by_cases h3 : r.rate_limit <;> simp [h1, h2, h3]

/-- C4: the display status follows the fixed precedence (timeout, then
rate-limit marker, then zero exit, then FAIL), while the crash tally
increments exactly on timeout or non-zero exit, independently of the
display status: a rate-limited run exiting zero is not a crash, and a
rate-limited run exiting non-zero is a crash yet still shows RATE_LIMIT. -/
theorem classifier_precedence (t : Tally) (ec : Int) (d : ℚ) (out : String) :
    (stepIteration t IterOutcome.timeout).statuses = t.statuses ++ ["TIMEOUT"]
    ∧ (stepIteration t IterOutcome.timeout).crashes = t.crashes + 1
    ∧ (stepIteration t (IterOutcome.completed (run_once ec d out))).statuses =
        t.statuses ++ [if hasMarker "Rate limit exceeded" out then "RATE_LIMIT"
          else if ec = 0 then "OK" else "FAIL"]
    ∧ (stepIteration t (IterOutcome.completed (run_once ec d out))).crashes =
        t.crashes + (if ec = 0 then 0 else 1)
    ∧ (hasMarker "Rate limit exceeded" out = true → ec = 0 →
        (stepIteration t (IterOutcome.completed (run_once ec d out))).crashes = t.crashes
        ∧ (stepIteration t (IterOutcome.completed (run_once ec d out))).statuses =
            t.statuses ++ ["RATE_LIMIT"])
    ∧ (hasMarker "Rate limit exceeded" out = true → ec ≠ 0 →
        (stepIteration t (IterOutcome.completed (run_once ec d out))).crashes = t.crashes + 1
        ∧ (stepIteration t (IterOutcome.completed (run_once ec d out))).statuses =
            t.statuses ++ ["RATE_LIMIT"]) := by
  have hs := stepIteration_statuses t (IterOutcome.completed (run_once ec d out))
  have hc := stepIteration_crashes t (IterOutcome.completed (run_once ec d out))
  refine ⟨rfl, rfl, ?_, ?_, ?_, ?_⟩
  · rw [hs]; simp [statusOf, run_once]
  · rw [hc]; by_cases h : ec = 0 <;> simp [isCrash, run_once, h]
  · intro hm h0
    refine ⟨?_, ?_⟩
    · rw [hc]; simp [isCrash, run_once, h0]
    · rw [hs]; simp [statusOf, run_once, hm]
  · intro hm h0
    refine ⟨?_, ?_⟩
    · rw [hc]; simp [isCrash, run_once, h0]
    · rw [hs]; simp [statusOf, run_once, hm]

theorem classifier_precedence_witness :
    (stepIteration initTally
        (IterOutcome.completed (run_once 0 1 "Rate limit exceeded"))).crashes = initTally.crashes
    ∧ (stepIteration initTally
        (IterOutcome.completed (run_once 3 1 "Rate limit exceeded"))).crashes = initTally.crashes + 1
    ∧ (stepIteration initTally
        (IterOutcome.completed (run_once 3 1 "Rate limit exceeded"))).statuses =
        initTally.statuses ++ ["RATE_LIMIT"] :=
  ⟨((classifier_precedence initTally 0 1 "Rate limit exceeded").2.2.2.2.1
      (by decide) rfl).1,
    ((classifier_precedence initTally 3 1 "Rate limit exceeded").2.2.2.2.2
      (by decide) (by decide)).1,
    ((classifier_precedence initTally 3 1 "Rate limit exceeded").2.2.2.2.2
      (by decide) (by decide)).2⟩

/-- C3 counterexample: invoked with no command tokens at all (and one clean
iteration available), the driver does not terminate with exit code 2
before the loop: it runs the loop and exits 0. -/
theorem no_command_runs_default :
    (mainDriver [] [IterOutcome.completed (run_once 0 1 "")]).1 = 0
    ∧ (mainDriver [] [IterOutcome.completed (run_once 0 1 "")]).2 ≠ none := by
  decide

/-- C3 amended: with no command tokens at all the driver substitutes the
default ["balances"] and runs the loop normally; the immediate exit-code-2
path is taken only when the tokens are exactly the stripped separator
["--"]. -/
theorem no_command_defaults_to_balances (outs : List IterOutcome) :
    resolveCliArgs [] = some ["balances"]
    ∧ mainDriver [] outs = (exitCode (runLoop outs), some (runLoop outs))
    ∧ mainDriver ["--"] outs = (2, none) :=
  ⟨rfl, rfl, rfl⟩

/-- C10: an empty command token list is replaced by the default
["balances"] and the iteration loop runs; the error-and-exit-2 path is
taken exactly when the token list is ["--"], which strips to nothing. -/
theorem empty_command_default_and_separator_error (outs : List IterOutcome) (c : List String) :
    resolveCliArgs [] = some ["balances"]
    ∧ (mainDriver [] outs).2 = some (runLoop outs)
    ∧ (resolveCliArgs c = none ↔ c = ["--"])
    ∧ mainDriver ["--"] outs = (2, none) := by
  refine ⟨rfl, rfl, ?_, rfl⟩
  match c with
  | [] => simp [resolveCliArgs]
  | a :: rest =>
      by_cases ha : a = "--"
      · subst ha
        cases rest with
        | nil => simp [resolveCliArgs]
        | cons b rest2 => simp [resolveCliArgs]
      · simp [resolveCliArgs, ha]

theorem empty_command_default_and_separator_error_witness :
    resolveCliArgs ["--"] = none ∧ resolveCliArgs [] = some ["balances"] :=
  ⟨(empty_command_default_and_separator_error [] ["--"]).2.2.1.mpr rfl,
    (empty_command_default_and_separator_error [] ["--"]).1⟩

theorem runLoop_aux (l : List IterOutcome) :
    ∀ t : Tally,
      (l.foldl stepIteration t).statuses = t.statuses ++ l.map statusOf
      ∧ (l.foldl stepIteration t).durations = t.durations ++ l.filterMap durOf
      ∧ (l.foldl stepIteration t).crashes = t.crashes + l.countP isCrash := by
  induction l with
  | nil => intro t; simp
  | cons o l ih =>
      intro t
      obtain ⟨h1, h2, h3⟩ := ih (stepIteration t o)
      refine ⟨?_, ?_, ?_⟩
      · rw [List.foldl_cons, h1, stepIteration_statuses]
        simp
      · rw [List.foldl_cons, h2, stepIteration_durations]
        cases h : durOf o <;> simp [List.filterMap_cons, h]
      · rw [List.foldl_cons, h3, stepIteration_crashes]
        rw [List.countP_cons]
        by_cases h : isCrash o
        · simp only [h, if_pos]
          omega
        · simp [h]

theorem getD_map_statusOf :
    ∀ (l : List IterOutcome) (j : Nat), j < l.length →
      (l.map statusOf).getD j "" = statusOf (l.getD j IterOutcome.timeout)
  | [], j, h => absurd h (by simp)
  | _ :: _, 0, _ => rfl
  | _ :: l, j + 1, h => getD_map_statusOf l j (Nat.lt_of_succ_lt_succ (by simpa using h))

theorem filterMap_eraseIdx_of_none {α β : Type} (f : α → Option β) (d : α) :
    ∀ (l : List α) (j : Nat), j < l.length → f (l.getD j d) = none →
      (l.eraseIdx j).filterMap f = l.filterMap f
  | [], j, h, _ => absurd h (by simp)
  | a :: l, 0, _, hf => by
      simp only [List.eraseIdx]
      rw [List.filterMap_cons]
      rw [List.getD_cons_zero] at hf
      simp [hf]
  | a :: l, j + 1, h, hf => by
      simp only [List.eraseIdx]
      rw [List.filterMap_cons, List.filterMap_cons,
        filterMap_eraseIdx_of_none f d l j (Nat.lt_of_succ_lt_succ (by simpa using h))
          (by simpa using hf)]

theorem getD_mem {α : Type} (d : α) :
    ∀ (l : List α) (j : Nat), j < l.length → l.getD j d ∈ l
  | [], j, h => absurd h (by simp)
  | a :: l, 0, _ => List.mem_cons_self a l
  | a :: l, j + 1, h =>
      List.mem_cons_of_mem a (getD_mem d l j (Nat.lt_of_succ_lt_succ (by simpa using h)))

/-- C6: if the j-th iteration times out, its printed status is TIMEOUT, it
contributes no duration sample (the duration list equals the one obtained
with that iteration removed), the crash count is positive, every iteration
is still processed (one status line per iteration), and the run exits 2. -/
theorem timeout_iteration_isolated (outcomes : List IterOutcome) (j : Nat)
    (hj : j < outcomes.length)
    (ht : outcomes.getD j IterOutcome.timeout = IterOutcome.timeout) :
    (runLoop outcomes).statuses.getD j "" = "TIMEOUT"
    ∧ (runLoop outcomes).statuses.length = outcomes.length
    ∧ (runLoop outcomes).durations = (runLoop (outcomes.eraseIdx j)).durations
    ∧ (runLoop outcomes).crashes = outcomes.countP isCrash
    ∧ 0 < (runLoop outcomes).crashes
    ∧ exitCode (runLoop outcomes) = 2 := by
  obtain ⟨hs, hd, hc⟩ := runLoop_aux outcomes initTally
  obtain ⟨hs2, hd2, hc2⟩ := runLoop_aux (outcomes.eraseIdx j) initTally
  have hsl : (runLoop outcomes).statuses = outcomes.map statusOf := by
    simpa [runLoop, initTally] using hs
  have hdl : (runLoop outcomes).durations = outcomes.filterMap durOf := by
    simpa [runLoop, initTally] using hd
  have hcl : (runLoop outcomes).crashes = outcomes.countP isCrash := by
    simpa [runLoop, initTally] using hc
  have hdl2 : (runLoop (outcomes.eraseIdx j)).durations = (outcomes.eraseIdx j).filterMap durOf := by
    simpa [runLoop, initTally] using hd2
  have hcrash : 0 < outcomes.countP isCrash := by
    rw [List.countP_pos_iff]
    refine ⟨outcomes.getD j IterOutcome.timeout, getD_mem _ _ _ hj, ?_⟩
    rw [ht]; rfl
  refine ⟨?_, ?_, ?_, hcl, ?_, ?_⟩
  · rw [hsl, getD_map_statusOf outcomes j hj, ht]; rfl
  · rw [hsl]; simp
  · rw [hdl, hdl2, filterMap_eraseIdx_of_none durOf IterOutcome.timeout outcomes j hj
      (by rw [ht]; rfl)]
  · rw [hcl]; exact hcrash
  · rw [exitCode, if_pos (by rw [hcl]; exact hcrash)]

theorem timeout_iteration_isolated_witness :
    (runLoop [IterOutcome.timeout]).statuses.getD 0 "" = "TIMEOUT"
    ∧ exitCode (runLoop [IterOutcome.timeout]) = 2 :=
  ⟨(timeout_iteration_isolated [IterOutcome.timeout] 0 (by decide) rfl).1,
    (timeout_iteration_isolated [IterOutcome.timeout] 0 (by decide) rfl).2.2.2.2.2⟩

/-- percentile of cli_loop_test.py over exact rationals: 0.0 for the empty
list; otherwise sort ascending and take the element at index
ceil(pct * count) - 1, clamped into [0, count - 1]. -/
def percentile (values : List ℚ) (pct : ℚ) : ℚ :=
  if values = [] then 0
  else
    let sorted_vals := List.insertionSort (fun a b => a ≤ b) values
    let idx : Int := Int.ceil (pct * (sorted_vals.length : ℚ)) - 1
    let idx2 : Int := max 0 (min idx ((sorted_vals.length : Int) - 1))
    sorted_vals.getD idx2.toNat 0

/-- The nearest-rank method in the spec's own words: rank equals
ceiling(p x count) clamped to [1, count]; return the value at that
1-indexed rank of the list sorted ascending. -/
def nearestRankSpec (xs : List ℚ) (p : ℚ) : ℚ :=
  let sorted := List.insertionSort (fun a b => a ≤ b) xs
  let rank : Int := min (max (Int.ceil (p * (xs.length : ℚ))) 1) (xs.length : Int)
  sorted.getD (rank - 1).toNat 0

theorem sortAsc_length (xs : List ℚ) :
    (List.insertionSort (fun a b => a ≤ b) xs).length = xs.length :=
  (List.perm_insertionSort _ xs).length_eq

theorem sortAsc_mem (xs : List ℚ) (a : ℚ) :
    a ∈ List.insertionSort (fun a b => a ≤ b) xs ↔ a ∈ xs :=
  (List.perm_insertionSort _ xs).mem_iff

theorem sortAsc_sorted (xs : List ℚ) :
    (List.insertionSort (fun a b => a ≤ b) xs).Sorted (fun a b => a ≤ b) :=
  List.sorted_insertionSort _ xs

theorem sorted_getD_mono (l : List ℚ) (hs : l.Sorted (fun a b => a ≤ b))
    (i j : Nat) (hij : i ≤ j) (hj : j < l.length) :
    l.getD i 0 ≤ l.getD j 0 := by
  rcases Nat.eq_or_lt_of_le hij with h | h
  · subst h; exact le_refl _
  · rw [List.getD_eq_get l 0 (lt_of_le_of_lt hij hj), List.getD_eq_get l 0 hj]
    exact List.pairwise_iff_get.mp hs ⟨i, lt_of_le_of_lt hij hj⟩ ⟨j, hj⟩
      (Fin.mk_lt_mk.mpr h)

theorem sorted_getD_zero_lb (l : List ℚ) (hs : l.Sorted (fun a b => a ≤ b))
    (y : ℚ) (hy : y ∈ l) : l.getD 0 0 ≤ y := by
  obtain ⟨i, hi⟩ := List.mem_iff_get.mp hy
  rw [← hi, ← List.getD_eq_get l 0 i.isLt]
  exact sorted_getD_mono l hs 0 i.val (Nat.zero_le _) i.isLt

theorem sorted_getD_last_ub (l : List ℚ) (hs : l.Sorted (fun a b => a ≤ b))
    (y : ℚ) (hy : y ∈ l) : y ≤ l.getD (l.length - 1) 0 := by
  obtain ⟨i, hi⟩ := List.mem_iff_get.mp hy
  have hl : l.length - 1 < l.length := by
    have := i.isLt
    omega
  rw [← hi, ← List.getD_eq_get l 0 i.isLt]
  exact sorted_getD_mono l hs i.val (l.length - 1) (by have := i.isLt; omega) hl

theorem percentile_eval (xs : List ℚ) (p : ℚ) (hne : xs ≠ []) :
    percentile xs p =
      (List.insertionSort (fun a b => a ≤ b) xs).getD
        (max 0 (min (Int.ceil (p * (xs.length : ℚ)) - 1) ((xs.length : Int) - 1))).toNat 0 := by
  simp only [percentile, if_neg hne, sortAsc_length]

/-- C5: for a non-empty list and 0 < p <= 1, percentile agrees with the
spec's nearest-rank method (rank = ceiling(p x count) clamped to
[1, count], read at that 1-indexed rank of the ascending sort); the
percentile of the empty list is 0 for any p; and the percentile at p = 1
is the maximum of the list. -/
theorem percentile_nearest_rank (xs : List ℚ) (p : ℚ) (hne : xs ≠ [])
    (hp0 : 0 < p) (hp1 : p ≤ 1) :
    percentile xs p = nearestRankSpec xs p
    ∧ percentile [] p = 0
    ∧ percentile xs 1 ∈ xs
    ∧ ∀ y ∈ xs, y ≤ percentile xs 1 := by
  have hn : 0 < xs.length := List.length_pos.mpr hne
  have hc1 : (1 : Int) ≤ Int.ceil (p * (xs.length : ℚ)) := by
    have hpos : (0 : ℚ) < p * (xs.length : ℚ) :=
      mul_pos hp0 (by exact_mod_cast hn)
    have := Int.lt_ceil.mpr (by exact_mod_cast hpos : ((0 : Int) : ℚ) < p * (xs.length : ℚ))
    omega
  have hc2 : Int.ceil (p * (xs.length : ℚ)) ≤ (xs.length : Int) :=
    Int.ceil_le.mpr (by
      have : p * (xs.length : ℚ) ≤ 1 * (xs.length : ℚ) :=
        mul_le_mul_of_nonneg_right hp1 (by positivity)
      simpa using this)
  have key1 : percentile xs 1 =
      (List.insertionSort (fun a b => a ≤ b) xs).getD (xs.length - 1) 0 := by
    rw [percentile_eval xs 1 hne]
    congr 1
    rw [one_mul, Int.ceil_natCast]
    omega
  have hlast : xs.length - 1 < (List.insertionSort (fun a b => a ≤ b) xs).length := by
    rw [sortAsc_length]
    omega
  refine ⟨?_, by simp [percentile], ?_, ?_⟩
  · rw [percentile_eval xs p hne]
    simp only [nearestRankSpec]
    congr 1
    omega
  · rw [key1]
    exact (sortAsc_mem xs _).mp (getD_mem 0 _ _ hlast)
  · intro y hy
    rw [key1]
    have h := sorted_getD_last_ub (List.insertionSort (fun a b => a ≤ b) xs)
      (sortAsc_sorted xs) y ((sortAsc_mem xs y).mpr hy)
    rwa [sortAsc_length] at h

theorem percentile_nearest_rank_witness :
    ([1, 2, 3, 4, 5] : List ℚ) ≠ []
    ∧ percentile [1, 2, 3, 4, 5] (19 / 20) = nearestRankSpec [1, 2, 3, 4, 5] (19 / 20)
    ∧ percentile [1, 2, 3, 4, 5] (19 / 20) = 5
    ∧ percentile [1, 2, 3, 4, 5] 1 ∈ ([1, 2, 3, 4, 5] : List ℚ) := by
  refine ⟨by simp,
    (percentile_nearest_rank [1, 2, 3, 4, 5] (19 / 20) (by simp) (by norm_num) (by norm_num)).1,
    ?_,
    (percentile_nearest_rank [1, 2, 3, 4, 5] (19 / 20) (by simp) (by norm_num) (by norm_num)).2.2.1⟩
  rw [percentile_eval [1, 2, 3, 4, 5] (19 / 20) (by simp)]
  have hc : (Int.ceil ((19 : ℚ) / 20 * (([1, 2, 3, 4, 5] : List ℚ).length : ℚ))) = 5 := by
    norm_num [Int.ceil_eq_iff]
  rw [hc]
  norm_num
  decide

/-- C9: percentile is total and in-range for every rational proportion,
not only 0 < p <= 1: the clamped index always selects an element of the
non-empty input, p = 0 clamps to the minimum, and p = 2 clamps to the
maximum. -/
theorem percentile_total (xs : List ℚ) (p : ℚ) (hne : xs ≠ []) :
    percentile xs p ∈ xs
    ∧ percentile xs 0 ∈ xs
    ∧ (∀ y ∈ xs, percentile xs 0 ≤ y)
    ∧ percentile xs 2 ∈ xs
    ∧ (∀ y ∈ xs, y ≤ percentile xs 2) := by
  have hn : 0 < xs.length := List.length_pos.mpr hne
  have hmemAt : ∀ q : ℚ, percentile xs q ∈ xs := by
    intro q
    rw [percentile_eval xs q hne]
    refine (sortAsc_mem xs _).mp (getD_mem 0 _ _ ?_)
    rw [sortAsc_length]
    omega
  have key0 : percentile xs 0 =
      (List.insertionSort (fun a b => a ≤ b) xs).getD 0 0 := by
    rw [percentile_eval xs 0 hne]
    congr 1
    rw [zero_mul]
    simp only [Int.ceil_zero]
    omega
  have hcast : (2 : ℚ) * (xs.length : ℚ) = (((2 * xs.length : Nat) : Int) : ℚ) := by
    push_cast
    ring
  have key2 : percentile xs 2 =
      (List.insertionSort (fun a b => a ≤ b) xs).getD (xs.length - 1) 0 := by
    rw [percentile_eval xs 2 hne]
    congr 1
    rw [hcast, Int.ceil_intCast]
    omega
  refine ⟨hmemAt p, hmemAt 0, ?_, hmemAt 2, ?_⟩
  · intro y hy
    rw [key0]
    exact sorted_getD_zero_lb _ (sortAsc_sorted xs) y ((sortAsc_mem xs y).mpr hy)
  · intro y hy
    rw [key2]
    have h := sorted_getD_last_ub (List.insertionSort (fun a b => a ≤ b) xs)
      (sortAsc_sorted xs) y ((sortAsc_mem xs y).mpr hy)
    rwa [sortAsc_length] at h

theorem percentile_total_witness :
    ([3, 1, 2] : List ℚ) ≠ []
    ∧ percentile [3, 1, 2] 7 ∈ ([3, 1, 2] : List ℚ)
    ∧ percentile [3, 1, 2] 0 ∈ ([3, 1, 2] : List ℚ) :=
  ⟨by simp,
    (percentile_total [3, 1, 2] 7 (by simp)).1,
    (percentile_total [3, 1, 2] 7 (by simp)).2.1⟩
